import Mathlib

/-!
Verification of the TimeTrackingBolt model/view-logic layer: the weekly
time-entry view model (week boundaries, per-day aggregation), the entry
lifecycle (duration computation, create/update/delete write requests),
the role-gated navigation capability set, and the allow-listed sign-in flow.

The embedding follows the TypeScript source: `calculateHours`,
`saveTimeEntry`, `deleteTimeEntry`, `getEntriesForDay`, `getTotalHoursForDay`
and the form submit paths come from the TimeTracking component; `signIn` from
the useAuth hook; `navigation` from the Layout component.  Dates are days
since the Unix epoch (an integer), wall-clock times are parsed HH:MM pairs,
and the JavaScript number type is modelled by ℚ (all arithmetic involved is
exact at minute granularity).
-/

namespace TimeTrackingBolt

/-- A wall-clock time of day: the parsed form of an `HH:MM` string produced by
a `<input type="time">` control. -/
structure HHMM where
  hh : Nat
  mm : Nat
deriving DecidableEq

/-- Minutes since midnight of a wall-clock time. -/
def minutesOfDay (t : HHMM) : Nat := t.hh * 60 + t.mm

/-- The epoch timestamp (milliseconds) of the fixed reference date
`2000-01-01T00:00:00` used by `calculateHours`.  Its exact value is irrelevant:
it cancels in the subtraction. -/
def epoch2000Ms : Int := 946684800000

/-- `parseISO("2000-01-01T" + t + ":00").getTime()`: milliseconds on the common
reference date. -/
def getTimeMs (t : HHMM) : Int := epoch2000Ms + (minutesOfDay t : Int) * 60 * 1000

/-- `calculateHours` from the TimeTracking component:
`(end.getTime() - start.getTime()) / (1000 * 60 * 60)`. -/
def calculateHours (startTime endTime : HHMM) : ℚ :=
  ((getTimeMs endTime - getTimeMs startTime : Int) : ℚ) / (1000 * 60 * 60)

/-- Modelled from the spec words: duration (hours) is `(end - start)`
expressed as a fractional hour value. -/
def specDurationHours (startTime endTime : HHMM) : ℚ :=
  ((minutesOfDay endTime : ℚ) - (minutesOfDay startTime : ℚ)) / 60

/-- JavaScript `Date.prototype.getDay` on a day index (days since the Unix
epoch, which fell on a Thursday): 0 = Sunday, 1 = Monday, …, 6 = Saturday. -/
def jsGetDay (d : Int) : Int := (d + 4) % 7

/-- `startOfWeek(d, { weekStartsOn: 1 })` at day granularity, following the
date-fns algorithm: subtract `(day < 1 ? 7 : 0) + day - 1` days. -/
def startOfWeekMonday (d : Int) : Int :=
  d - ((if jsGetDay d < 1 then 7 else 0) + jsGetDay d - 1)

/-- `endOfWeek(d, { weekStartsOn: 1 })` at day granularity, following the
date-fns algorithm: add `(day < 1 ? -7 : 0) + 6 - (day - 1)` days. -/
def endOfWeekMonday (d : Int) : Int :=
  d + ((if jsGetDay d < 1 then -7 else 0) + 6 - (jsGetDay d - 1))

/-- User roles as in the `users` table and the `useAuth` hook. -/
inductive Role
  | user
  | supervisor
  | manager
deriving DecidableEq

/-- Navigation capabilities exposed by the Layout component. -/
inductive Capability
  | time_tracking
  | projects
  | analytics
  | management
deriving DecidableEq

/-- The `navigation` array of the Layout component, as a function of the
signed-in user role: Time Tracking and Projects always, Analytics for
supervisor or manager, User Management for manager. -/
def navigation (role : Role) : List Capability :=
  [Capability.time_tracking, Capability.projects]
    ++ (if role = Role.supervisor ∨ role = Role.manager then [Capability.analytics] else [])
    ++ (if role = Role.manager then [Capability.management] else [])

/-- A `time_entries` row.  The client-side `TimeEntry` interface omits
`user_id` (rows are fetched filtered by the current user), but the stored row
carries it; `task_id` is nullable. -/
structure TimeEntry where
  id : String
  user_id : String
  project_id : String
  task_id : Option String
  date : String
  start_time : HHMM
  end_time : HHMM
  hours : ℚ
  description : String
deriving DecidableEq

/-- `getEntriesForDay`: exact date-string match against the fetched list. -/
def getEntriesForDay (entries : List TimeEntry) (dateStr : String) : List TimeEntry :=
  entries.filter (fun e => e.date == dateStr)

/-- `getTotalHoursForDay`: `reduce((total, entry) => total + entry.hours, 0)`
over that day. -/
def getTotalHoursForDay (entries : List TimeEntry) (dateStr : String) : ℚ :=
  (getEntriesForDay entries dateStr).foldl (fun total e => total + e.hours) 0

/-- The signed-in user profile resolved by the `useAuth` hook. -/
structure UserRec where
  id : String
  email : String
  name : String
  role : Role
deriving DecidableEq

/-- The fields of the `Partial<TimeEntry>` argument that `saveTimeEntry`
actually reads (it recomputes `hours` and never reads the passed one).
`id` present means an update of that entry; `task_id` is a JavaScript
string-or-null value, with `some ""` for the empty string the forms use for
"no task". -/
structure EntryInput where
  id : Option String
  project_id : String
  task_id : Option String
  date : String
  start_time : HHMM
  end_time : HHMM
  description : String
deriving DecidableEq

/-- JavaScript `v || null` on a string-or-null value: null and the empty
string both become null. -/
def jsOrNull (v : Option String) : Option String :=
  match v with
  | none => none
  | some s => if s = "" then none else some s

/-- The object literal sent by the update branch of `saveTimeEntry`
(lines 121–129): note that it carries neither `user_id` nor `date`. -/
structure UpdatePayload where
  project_id : String
  task_id : Option String
  start_time : HHMM
  end_time : HHMM
  hours : ℚ
  description : String
deriving DecidableEq

/-- The object literal sent by the insert branch of `saveTimeEntry`
(lines 138–147). -/
structure InsertPayload where
  user_id : String
  project_id : String
  task_id : Option String
  date : String
  start_time : HHMM
  end_time : HHMM
  hours : ℚ
  description : String
deriving DecidableEq

/-- A write request issued to the `time_entries` table. -/
inductive WriteRequest
  | update (id : String) (payload : UpdatePayload)
  | insert (payload : InsertPayload)
  | delete (id : String)
deriving DecidableEq

/-- The project id carried by a write request, when it carries one. -/
def requestProjectId : WriteRequest → Option String
  | WriteRequest.update _ p => some p.project_id
  | WriteRequest.insert p => some p.project_id
  | WriteRequest.delete _ => none

/-- The task id carried by a write request, when it carries one. -/
def requestTaskId : WriteRequest → Option (Option String)
  | WriteRequest.update _ p => some p.task_id
  | WriteRequest.insert p => some p.task_id
  | WriteRequest.delete _ => none

/-- The hours value carried by a write request, when it carries one. -/
def requestHours : WriteRequest → Option ℚ
  | WriteRequest.update _ p => some p.hours
  | WriteRequest.insert p => some p.hours
  | WriteRequest.delete _ => none

/-- `saveTimeEntry`: returns early when no user is signed in; otherwise
recomputes `hours` and issues an update (when `entry.id` is present) or an
insert.  `entry.task_id || null` normalizes a falsy task id to null; the
insert branch scopes the row to the acting user and defaults the
description to the empty string (`entry.description || ''`, the identity on
our always-present string field). -/
def saveTimeEntry (user : Option UserRec) (entry : EntryInput) : Option WriteRequest :=
  match user with
  | none => none
  | some u =>
    match entry.id with
    | some entryId =>
        some (WriteRequest.update entryId
          { project_id := entry.project_id
            task_id := jsOrNull entry.task_id
            start_time := entry.start_time
            end_time := entry.end_time
            hours := calculateHours entry.start_time entry.end_time
            description := entry.description })
    | none =>
        some (WriteRequest.insert
          { user_id := u.id
            project_id := entry.project_id
            task_id := jsOrNull entry.task_id
            date := entry.date
            start_time := entry.start_time
            end_time := entry.end_time
            hours := calculateHours entry.start_time entry.end_time
            description := entry.description })

/-- The backend applying an update payload to a stored row: exactly the sent
fields are replaced; fields absent from the payload (`user_id`, `date`) keep
their stored values. -/
def applyUpdate (s : TimeEntry) (p : UpdatePayload) : TimeEntry :=
  { s with
    project_id := p.project_id
    task_id := p.task_id
    start_time := p.start_time
    end_time := p.end_time
    hours := p.hours
    description := p.description }

/-- The `newEntry` state slot backing the new-entry form. -/
structure NewEntryState where
  date : String
  project_id : String
  task_id : String
  start_time : HHMM
  end_time : HHMM
  description : String
deriving DecidableEq

/-- The new-entry form save button is `disabled={!entry.project_id}`:
disabled exactly when the project id is the empty string. -/
def newEntrySaveDisabled (e : NewEntryState) : Bool := e.project_id == ""

/-- Submitting the new-entry form: a disabled button cannot fire `onSave`;
otherwise `saveTimeEntry` runs on the form state (no stored id). -/
def newEntrySubmit (user : Option UserRec) (e : NewEntryState) : Option WriteRequest :=
  if newEntrySaveDisabled e then none
  else saveTimeEntry user
    { id := none
      project_id := e.project_id
      task_id := some e.task_id
      date := e.date
      start_time := e.start_time
      end_time := e.end_time
      description := e.description }

/-- The `formData` state of an entry card in editing mode. -/
structure EditFormState where
  project_id : String
  task_id : String
  start_time : HHMM
  end_time : HHMM
  description : String
deriving DecidableEq

/-- Submitting the edit form: the save button has no disabled guard and fires
`onSave({ ...entry, ...formData })`, so `saveTimeEntry` always runs, with the
stored id and date and the form values for the remaining fields. -/
def editSubmit (user : Option UserRec) (stored : TimeEntry) (fd : EditFormState) :
    Option WriteRequest :=
  saveTimeEntry user
    { id := some stored.id
      project_id := fd.project_id
      task_id := some fd.task_id
      date := stored.date
      start_time := fd.start_time
      end_time := fd.end_time
      description := fd.description }

/-- The observable outcome of one write operation: the request issued (if
any), whether a full re-fetch was triggered, and the toast shown. -/
structure OpRun where
  request : Option WriteRequest
  refetch : Bool
  successToast : Option String
  failureToast : Option String
deriving DecidableEq

/-- `saveTimeEntry` with its success/failure handling: on success clear the
edit slots and call `fetchData()`; on failure toast
`'Failed to save time entry'` and leave state alone.  `writeOk` stands for
the backend accepting the write. -/
def runSaveTimeEntry (user : Option UserRec) (e : EntryInput) (writeOk : Bool) : OpRun :=
  match saveTimeEntry user e with
  | none => { request := none, refetch := false, successToast := none, failureToast := none }
  | some req =>
    if writeOk then
      { request := some req
        refetch := true
        successToast := some (match e.id with
          | some _ => "Time entry updated"
          | none => "Time entry added")
        failureToast := none }
    else
      { request := some req
        refetch := false
        successToast := none
        failureToast := some "Failed to save time entry" }

/-- `deleteTimeEntry`: delete by id, `fetchData()` on success, toast
`'Failed to delete time entry'` on failure. -/
def runDeleteTimeEntry (entryId : String) (writeOk : Bool) : OpRun :=
  if writeOk then
    { request := some (WriteRequest.delete entryId)
      refetch := true
      successToast := some "Time entry deleted"
      failureToast := none }
  else
    { request := some (WriteRequest.delete entryId)
      refetch := false
      successToast := none
      failureToast := some "Failed to delete time entry" }

/-- The fetched `timeEntries` state after an operation: it is only replaced
when the operation triggered a re-fetch. -/
def applyRun (state fetched : List TimeEntry) (r : OpRun) : List TimeEntry :=
  if r.refetch then fetched else state

/-- An `authorized_emails` allow-list row. -/
structure AuthorizedEmailRow where
  email : String
  role : Role
deriving DecidableEq

/-- The row upserted into `users` on sign-in. -/
structure UserUpsertRow where
  email : String
  name : String
  role : Role
deriving DecidableEq

/-- A `.select().eq('email', email).single()` query: a row when exactly one
matches, an error (none) otherwise. -/
def singleRow (rows : List AuthorizedEmailRow) (email : String) : Option AuthorizedEmailRow :=
  match rows.filter (fun a => a.email == email) with
  | [a] => some a
  | _ => none

/-- JavaScript `v || d` on an optional string: null and the empty string fall
back to the default. -/
def jsOrDefault (v : Option String) (d : String) : String :=
  match v with
  | none => d
  | some s => if s = "" then d else s

/-- `email.split('@')[0]`. -/
def emailLocalPart (email : String) : String :=
  (email.splitOn "@").headD email

/-- The observable effects of one `signIn` call. -/
structure SignInEffects where
  result : Bool
  notAuthorizedToast : Bool
  otpRequested : Bool
  upsertIssued : Option UserUpsertRow
  failureToast : Bool
  successToast : Bool
deriving DecidableEq

/-- `signIn` from the useAuth hook: look the email up in the allow-list; on
a miss toast the not-authorized message and return false with no further
effect; otherwise request the magic link (`otpOk` stands for that request
succeeding), then upsert the user profile with the allow-listed role, and
report success or failure. -/
def signIn (authorizedEmails : List AuthorizedEmailRow) (otpOk upsertOk : Bool)
    (email : String) (name : Option String) : SignInEffects :=
  match singleRow authorizedEmails email with
  | none =>
      { result := false, notAuthorizedToast := true, otpRequested := false,
        upsertIssued := none, failureToast := false, successToast := false }
  | some a =>
      if otpOk = false then
        { result := false, notAuthorizedToast := false, otpRequested := true,
          upsertIssued := none, failureToast := true, successToast := false }
      else
        let row : UserUpsertRow :=
          { email := email, name := jsOrDefault name (emailLocalPart email), role := a.role }
        if upsertOk = false then
          { result := false, notAuthorizedToast := false, otpRequested := true,
            upsertIssued := some row, failureToast := true, successToast := false }
        else
          { result := true, notAuthorizedToast := false, otpRequested := true,
            upsertIssued := some row, failureToast := false, successToast := true }

end TimeTrackingBolt

namespace TimeTrackingBolt

/-- Claim C1 helper: `calculateHours` agrees with the spec-worded duration for
all wall-clock inputs (the reference-date offset cancels). -/
theorem calculateHours_eq_spec (s e : HHMM) :
    calculateHours s e = specDurationHours s e := by
  unfold calculateHours specDurationHours getTimeMs
  push_cast
  ring

/-- C1: for every pair of same-day wall-clock times, the computed duration
equals end minus start in fractional hours; in particular 09:00→10:30 gives
1.5 and 10:00→10:00 gives 0. -/
theorem duration_roundtrip :
    (∀ s e : HHMM, calculateHours s e = specDurationHours s e) ∧
    calculateHours ⟨9, 0⟩ ⟨10, 30⟩ = 3 / 2 ∧
    calculateHours ⟨10, 0⟩ ⟨10, 0⟩ = 0 := by
  refine ⟨calculateHours_eq_spec, ?_, ?_⟩ <;>
    norm_num [calculateHours, getTimeMs, minutesOfDay, epoch2000Ms]

/-- C2: for every reference day, the computed week start is the Monday at or
before it, the week end is the Sunday six days after that Monday, and the
reference day lies between them. -/
theorem week_boundaries (d : Int) :
    jsGetDay (startOfWeekMonday d) = 1 ∧
    startOfWeekMonday d ≤ d ∧
    d - startOfWeekMonday d < 7 ∧
    endOfWeekMonday d = startOfWeekMonday d + 6 ∧
    jsGetDay (endOfWeekMonday d) = 0 ∧
    d ≤ endOfWeekMonday d := by
  unfold startOfWeekMonday endOfWeekMonday jsGetDay
  split_ifs <;> omega

/-- Folding addition of the hours field equals the initial value plus the sum
of the hours. -/
theorem foldl_add_hours (l : List TimeEntry) (a : ℚ) :
    l.foldl (fun total e => total + e.hours) a = a + (l.map TimeEntry.hours).sum := by
  induction l generalizing a with
  | nil => simp
  | cons x xs ih => simp [ih, add_assoc]

/-- C3: the per-day total is the sum of `hours` over exactly the entries whose
`date` equals the given date string, and an entry of another date contributes
nothing. -/
theorem total_hours_for_day_exact (entries : List TimeEntry) (d : String) :
    getTotalHoursForDay entries d
      = ((entries.filter (fun e => e.date == d)).map TimeEntry.hours).sum ∧
    ∀ e : TimeEntry, e.date ≠ d →
      getTotalHoursForDay (e :: entries) d = getTotalHoursForDay entries d := by
  constructor
  · unfold getTotalHoursForDay getEntriesForDay
    rw [foldl_add_hours, zero_add]
  · intro e he
    unfold getTotalHoursForDay getEntriesForDay
    rw [List.filter_cons_of_neg]
    simpa using he

/-- C3 witness: a concrete entry dated 2024-01-01 contributes nothing to the
total of 2024-01-02. -/
theorem total_hours_for_day_exact_witness :
    getTotalHoursForDay
        [{ id := "e1", user_id := "u1", project_id := "p1", task_id := none,
           date := "2024-01-01", start_time := ⟨9, 0⟩, end_time := ⟨10, 30⟩,
           hours := 3 / 2, description := "" }] "2024-01-02"
      = getTotalHoursForDay [] "2024-01-02" :=
  (total_hours_for_day_exact [] "2024-01-02").2
    { id := "e1", user_id := "u1", project_id := "p1", task_id := none,
      date := "2024-01-01", start_time := ⟨9, 0⟩, end_time := ⟨10, 30⟩,
      hours := 3 / 2, description := "" } (by decide)

/-- C4: the navigation capability set is a function of the role alone:
role user yields exactly Time Tracking and Projects; supervisor adds
Analytics; manager adds Analytics and User Management. -/
theorem navigation_by_role :
    navigation Role.user = [Capability.time_tracking, Capability.projects] ∧
    navigation Role.supervisor
      = [Capability.time_tracking, Capability.projects, Capability.analytics] ∧
    navigation Role.manager
      = [Capability.time_tracking, Capability.projects, Capability.analytics,
         Capability.management] := by
  decide

/-- C5 counterexample: on the edit-form path a save with an empty project id
is not rejected — a write request carrying `project_id = ""` is issued. -/
theorem edit_submit_empty_project_issues_write :
    (editSubmit (some { id := "u1", email := "a@co.example", name := "A", role := Role.user })
        { id := "t1", user_id := "u1", project_id := "p1", task_id := none,
          date := "2024-01-01", start_time := ⟨9, 0⟩, end_time := ⟨10, 0⟩,
          hours := 1, description := "" }
        { project_id := "", task_id := "", start_time := ⟨9, 0⟩, end_time := ⟨10, 0⟩,
          description := "" }).isSome = true ∧
    ((editSubmit (some { id := "u1", email := "a@co.example", name := "A", role := Role.user })
        { id := "t1", user_id := "u1", project_id := "p1", task_id := none,
          date := "2024-01-01", start_time := ⟨9, 0⟩, end_time := ⟨10, 0⟩,
          hours := 1, description := "" }
        { project_id := "", task_id := "", start_time := ⟨9, 0⟩, end_time := ⟨10, 0⟩,
          description := "" }).bind requestProjectId) = some "" := by
  exact ⟨rfl, rfl⟩

/-- C5 amended: the empty-project rejection holds on the new-entry form path
(the save button is disabled, so no write is issued), but not on the edit-form
path, which always issues its write request. -/
theorem empty_project_validation (user : Option UserRec) (e : NewEntryState)
    (h : e.project_id = "") :
    newEntrySubmit user e = none ∧
    ∀ (u : UserRec) (s : TimeEntry) (fd : EditFormState),
      (editSubmit (some u) s fd).isSome = true := by
  constructor
  · simp [newEntrySubmit, newEntrySaveDisabled, h]
  · intro u s fd
    rfl

/-- C5 witness: a concrete blocked new-entry save and a concrete edit-form
save that goes through. -/
theorem empty_project_validation_witness :
    newEntrySubmit (some { id := "u1", email := "a@co.example", name := "A", role := Role.user })
        { date := "2024-01-01", project_id := "", task_id := "", start_time := ⟨9, 0⟩,
          end_time := ⟨10, 0⟩, description := "" } = none ∧
    (editSubmit (some { id := "u1", email := "a@co.example", name := "A", role := Role.user })
        { id := "t1", user_id := "u1", project_id := "p1", task_id := none,
          date := "2024-01-01", start_time := ⟨9, 0⟩, end_time := ⟨10, 0⟩,
          hours := 1, description := "" }
        { project_id := "p2", task_id := "", start_time := ⟨9, 0⟩, end_time := ⟨10, 0⟩,
          description := "" }).isSome = true :=
  ⟨(empty_project_validation _ _ rfl).1,
   (empty_project_validation
      (some { id := "u1", email := "a@co.example", name := "A", role := Role.user })
      { date := "2024-01-01", project_id := "", task_id := "", start_time := ⟨9, 0⟩,
        end_time := ⟨10, 0⟩, description := "" } rfl).2 _ _ _⟩

/-- C6: sign-in with an email that matches no allow-list row returns the
not-authorized outcome: result false, not-authorized toast, no magic-link
request and no user upsert. -/
theorem unauthorized_email_blocks_signin (db : List AuthorizedEmailRow)
    (otpOk upsertOk : Bool) (email : String) (name : Option String)
    (h : ∀ a ∈ db, a.email ≠ email) :
    signIn db otpOk upsertOk email name =
      { result := false, notAuthorizedToast := true, otpRequested := false,
        upsertIssued := none, failureToast := false, successToast := false } := by
  have hf : db.filter (fun a => a.email == email) = [] := by
    rw [List.filter_eq_nil_iff]
    intro a ha
    simpa using h a ha
  simp [signIn, singleRow, hf]

/-- C6 witness: a concrete allow-list without the attempted email. -/
theorem unauthorized_email_blocks_signin_witness :
    signIn [{ email := "boss@example.com", role := Role.manager }] true true
        "intruder@example.com" none
      = { result := false, notAuthorizedToast := true, otpRequested := false,
          upsertIssued := none, failureToast := false, successToast := false } :=
  unauthorized_email_blocks_signin _ _ _ _ _ (by decide)

/-- C7: with end time at or before start time the save is not rejected: a
write request is issued and carries the computed, non-positive duration. -/
theorem nonpositive_duration_not_rejected (u : UserRec) (e : EntryInput)
    (h : minutesOfDay e.end_time ≤ minutesOfDay e.start_time) :
    (saveTimeEntry (some u) e).isSome = true ∧
    (saveTimeEntry (some u) e).bind requestHours
      = some (calculateHours e.start_time e.end_time) ∧
    calculateHours e.start_time e.end_time ≤ 0 := by
  refine ⟨?_, ?_, ?_⟩
  · cases hid : e.id <;> simp [saveTimeEntry, hid]
  · cases hid : e.id <;> simp [saveTimeEntry, requestHours, hid]
  · rw [calculateHours_eq_spec]
    unfold specDurationHours
    apply div_nonpos_iff.mpr
    refine Or.inr ⟨?_, by norm_num⟩
    simp only [sub_nonpos]
    exact_mod_cast h

/-- C7 witness: a concrete 10:00 → 09:00 entry is saved with duration -1. -/
theorem nonpositive_duration_not_rejected_witness :
    (saveTimeEntry (some { id := "u1", email := "a@co.example", name := "A", role := Role.user })
        { id := none, project_id := "p1", task_id := none, date := "2024-01-01",
          start_time := ⟨10, 0⟩, end_time := ⟨9, 0⟩, description := "" }).isSome = true ∧
    (saveTimeEntry (some { id := "u1", email := "a@co.example", name := "A", role := Role.user })
        { id := none, project_id := "p1", task_id := none, date := "2024-01-01",
          start_time := ⟨10, 0⟩, end_time := ⟨9, 0⟩, description := "" }).bind requestHours
      = some (calculateHours ⟨10, 0⟩ ⟨9, 0⟩) ∧
    calculateHours ⟨10, 0⟩ ⟨9, 0⟩ ≤ 0 :=
  nonpositive_duration_not_rejected _ _ (by decide)

/-- C8: an update submission issues an update request that replaces project,
task, times, description and the recomputed hours, while the payload carries
no `user_id` and no `date`, so those two stored fields survive any update. -/
theorem update_frame (u : UserRec) (s : TimeEntry) (e : EntryInput)
    (hid : e.id = some s.id) :
    saveTimeEntry (some u) e = some (WriteRequest.update s.id
      { project_id := e.project_id
        task_id := jsOrNull e.task_id
        start_time := e.start_time
        end_time := e.end_time
        hours := calculateHours e.start_time e.end_time
        description := e.description }) ∧
    (∀ p : UpdatePayload,
      (applyUpdate s p).user_id = s.user_id ∧ (applyUpdate s p).date = s.date) ∧
    ∀ p : UpdatePayload, saveTimeEntry (some u) e = some (WriteRequest.update s.id p) →
      applyUpdate s p = { s with
        project_id := e.project_id
        task_id := jsOrNull e.task_id
        start_time := e.start_time
        end_time := e.end_time
        hours := calculateHours e.start_time e.end_time
        description := e.description } := by
  refine ⟨?_, fun p => ⟨rfl, rfl⟩, ?_⟩
  · simp [saveTimeEntry, hid]
  · intro p hp
    simp only [saveTimeEntry, hid] at hp
    simp only [Option.some.injEq, WriteRequest.update.injEq] at hp
    rw [← hp.2]
    rfl

/-- C8 witness: a concrete update of a stored entry. -/
theorem update_frame_witness :
    saveTimeEntry (some { id := "u1", email := "a@co.example", name := "A", role := Role.user })
        { id := some "t1", project_id := "p2", task_id := some "", date := "2024-01-01",
          start_time := ⟨8, 0⟩, end_time := ⟨9, 30⟩, description := "work" }
      = some (WriteRequest.update "t1"
        { project_id := "p2", task_id := jsOrNull (some ""), start_time := ⟨8, 0⟩,
          end_time := ⟨9, 30⟩, hours := calculateHours ⟨8, 0⟩ ⟨9, 30⟩,
          description := "work" }) :=
  (update_frame
    { id := "u1", email := "a@co.example", name := "A", role := Role.user }
    { id := "t1", user_id := "u1", project_id := "p1", task_id := none,
      date := "2024-01-01", start_time := ⟨9, 0⟩, end_time := ⟨10, 0⟩,
      hours := 1, description := "" }
    { id := some "t1", project_id := "p2", task_id := some "", date := "2024-01-01",
      start_time := ⟨8, 0⟩, end_time := ⟨9, 30⟩, description := "work" } rfl).1

/-- C9 counterexample: a failed create and a failed update surface the very
same failure message, so the create and update failure paths are not
distinguishable by their message. -/
theorem save_failure_toast_not_distinct :
    (runSaveTimeEntry (some { id := "u1", email := "a@co.example", name := "A", role := Role.user })
        { id := none, project_id := "p1", task_id := none, date := "2024-01-01",
          start_time := ⟨9, 0⟩, end_time := ⟨10, 0⟩, description := "" } false).failureToast
      = (runSaveTimeEntry
          (some { id := "u1", email := "a@co.example", name := "A", role := Role.user })
          { id := some "t1", project_id := "p1", task_id := none, date := "2024-01-01",
            start_time := ⟨9, 0⟩, end_time := ⟨10, 0⟩, description := "" } false).failureToast ∧
    (runSaveTimeEntry (some { id := "u1", email := "a@co.example", name := "A", role := Role.user })
        { id := none, project_id := "p1", task_id := none, date := "2024-01-01",
          start_time := ⟨9, 0⟩, end_time := ⟨10, 0⟩, description := "" } false).failureToast
      = some "Failed to save time entry" :=
  ⟨rfl, rfl⟩

/-- C9 amended: every write operation re-fetches on success and leaves the
fetched state untouched on failure, surfacing a failure message; the delete
failure message is distinct, but create and update failures share the message
"Failed to save time entry". -/
theorem fire_and_refresh (u : UserRec) (e : EntryInput) (entryId : String)
    (state fetched : List TimeEntry) :
    (runSaveTimeEntry (some u) e true).refetch = true ∧
    applyRun state fetched (runSaveTimeEntry (some u) e true) = fetched ∧
    (runDeleteTimeEntry entryId true).refetch = true ∧
    applyRun state fetched (runDeleteTimeEntry entryId true) = fetched ∧
    (runSaveTimeEntry (some u) e false).refetch = false ∧
    applyRun state fetched (runSaveTimeEntry (some u) e false) = state ∧
    (runSaveTimeEntry (some u) e false).failureToast = some "Failed to save time entry" ∧
    (runDeleteTimeEntry entryId false).refetch = false ∧
    applyRun state fetched (runDeleteTimeEntry entryId false) = state ∧
    (runDeleteTimeEntry entryId false).failureToast = some "Failed to delete time entry" ∧
    (runDeleteTimeEntry entryId false).failureToast
      ≠ (runSaveTimeEntry (some u) e false).failureToast := by
  obtain ⟨eid, epid, etid, edate, est, eend, edesc⟩ := e
  cases eid <;>
    refine ⟨rfl, rfl, rfl, rfl, rfl, rfl, rfl, rfl, rfl, rfl, ?_⟩ <;>
    simp [runSaveTimeEntry, runDeleteTimeEntry, saveTimeEntry]

/-- C9 witness: the amended statement at a concrete user, entry and id. -/
theorem fire_and_refresh_witness :
    (runSaveTimeEntry (some { id := "u1", email := "a@co.example", name := "A", role := Role.user })
        { id := none, project_id := "p1", task_id := none, date := "2024-01-01",
          start_time := ⟨9, 0⟩, end_time := ⟨10, 0⟩, description := "" } true).refetch = true ∧
    applyRun [] []
        (runSaveTimeEntry
          (some { id := "u1", email := "a@co.example", name := "A", role := Role.user })
          { id := none, project_id := "p1", task_id := none, date := "2024-01-01",
            start_time := ⟨9, 0⟩, end_time := ⟨10, 0⟩, description := "" } true) = [] ∧
    (runDeleteTimeEntry "t9" true).refetch = true ∧
    applyRun [] [] (runDeleteTimeEntry "t9" true) = [] ∧
    (runSaveTimeEntry (some { id := "u1", email := "a@co.example", name := "A", role := Role.user })
        { id := none, project_id := "p1", task_id := none, date := "2024-01-01",
          start_time := ⟨9, 0⟩, end_time := ⟨10, 0⟩, description := "" } false).refetch = false ∧
    applyRun [] []
        (runSaveTimeEntry
          (some { id := "u1", email := "a@co.example", name := "A", role := Role.user })
          { id := none, project_id := "p1", task_id := none, date := "2024-01-01",
            start_time := ⟨9, 0⟩, end_time := ⟨10, 0⟩, description := "" } false) = [] ∧
    (runSaveTimeEntry (some { id := "u1", email := "a@co.example", name := "A", role := Role.user })
        { id := none, project_id := "p1", task_id := none, date := "2024-01-01",
          start_time := ⟨9, 0⟩, end_time := ⟨10, 0⟩, description := "" } false).failureToast
      = some "Failed to save time entry" ∧
    (runDeleteTimeEntry "t9" false).refetch = false ∧
    applyRun [] [] (runDeleteTimeEntry "t9" false) = [] ∧
    (runDeleteTimeEntry "t9" false).failureToast = some "Failed to delete time entry" ∧
    (runDeleteTimeEntry "t9" false).failureToast
      ≠ (runSaveTimeEntry
          (some { id := "u1", email := "a@co.example", name := "A", role := Role.user })
          { id := none, project_id := "p1", task_id := none, date := "2024-01-01",
            start_time := ⟨9, 0⟩, end_time := ⟨10, 0⟩, description := "" } false).failureToast :=
  fire_and_refresh
    { id := "u1", email := "a@co.example", name := "A", role := Role.user }
    { id := none, project_id := "p1", task_id := none, date := "2024-01-01",
      start_time := ⟨9, 0⟩, end_time := ⟨10, 0⟩, description := "" } "t9" [] []

/-- `v || null` never yields the empty string. -/
theorem jsOrNull_ne_empty (v : Option String) : jsOrNull v ≠ some "" := by
  cases v with
  | none => simp [jsOrNull]
  | some s =>
    by_cases hs : s = "" <;> simp [jsOrNull, hs]

/-- C10: every issued write request carries a task id that is either null or
a non-empty string — the empty string is normalized away before the write. -/
theorem task_id_never_empty_string (user : Option UserRec) (e : EntryInput) :
    (saveTimeEntry user e).bind requestTaskId ≠ some (some "") := by
  cases user with
  | none => simp [saveTimeEntry]
  | some u =>
    cases hid : e.id <;>
      simpa [saveTimeEntry, requestTaskId, hid] using jsOrNull_ne_empty e.task_id

/-- C10 witness: an entry submitted with the empty-string task id does not
produce a request carrying the empty string. -/
theorem task_id_never_empty_string_witness :
    (saveTimeEntry (some { id := "u1", email := "a@co.example", name := "A", role := Role.user })
        { id := none, project_id := "p1", task_id := some "", date := "2024-01-01",
          start_time := ⟨9, 0⟩, end_time := ⟨10, 0⟩, description := "" }).bind requestTaskId
      ≠ some (some "") :=
  task_id_never_empty_string _ _

end TimeTrackingBolt
